import Mathlib

/-!
Shallow embedding of the exception-wrapper module of pex_exceptions
(src/python/lsst/pex/exceptions/wrappers.py) and proofs of its specified
properties.  The Python module maps a native C++ exception hierarchy into
Python wrapper classes: a registry from native class identity to wrapper
class, a metaclass delegating class-attribute misses to the wrapped native
class, a base wrapper whose constructor either adopts an existing native
fault or synthesizes a fresh one, a fixed tree of wrapper subclasses (each
optionally also inheriting a conventional Python builtin exception), and
the functions translate and declare.
-/

namespace PexExceptions

/-- Runtime identity of a native (C++) exception class from the exceptions
extension module.  The named constructors are the classes referenced by
wrappers.py; the constructor other models any further native exception
subclass (for example one produced by an extension module) that has no
named wrapper here. -/
inductive NativeClass where
  | Exception
  | LogicError
  | DomainError
  | InvalidParameterError
  | LengthError
  | OutOfRangeError
  | RuntimeError
  | RangeError
  | OverflowError
  | UnderflowError
  | NotFoundError
  | IoError
  | TypeError
  | other (id : Nat)
deriving DecidableEq

/-- Opaque extra construction arguments forwarded to the native constructor;
only their identity matters to the wrapper layer. -/
abbrev Value := Nat

/-- A native fault instance: its exact runtime class, the message returned
by what(), the formatted form returned by asString(), and a record of the
extra positional and keyword arguments its constructor received (empty for
faults that crossed the boundary from native code). -/
structure NativeFault where
  cls : NativeClass
  whatMsg : String
  asStringMsg : String
  ctorArgs : List Value
  ctorKwds : List (String × Value)
deriving DecidableEq

/-- Accessor for the native message, what() in the source. -/
def NativeFault.what (f : NativeFault) : String := f.whatMsg

/-- Accessor for the formatted native representation, asString() in the
source. -/
def NativeFault.asString (f : NativeFault) : String := f.asStringMsg

/-- Identity of a Python wrapper class.  The thirteen named constructors are
the classes defined in wrappers.py; declared represents a class created at
runtime by the declare function, carrying its name, its base wrapper class
and its wrapped native class. -/
inductive WrapperTy where
  | ExceptionW
  | LogicErrorW
  | DomainErrorW
  | InvalidParameterErrorW
  | LengthErrorW
  | OutOfRangeErrorW
  | RuntimeErrorW
  | RangeErrorW
  | OverflowErrorW
  | UnderflowErrorW
  | NotFoundErrorW
  | IoErrorW
  | TypeErrorW
  | declared (name : String) (base : WrapperTy) (wrapped : NativeClass)
deriving DecidableEq

/-- The WrappedClass attribute of each wrapper class, transcribed from the
class bodies in wrappers.py. -/
def WrappedClass : WrapperTy → NativeClass
  | .ExceptionW => .Exception
  | .LogicErrorW => .LogicError
  | .DomainErrorW => .DomainError
  | .InvalidParameterErrorW => .InvalidParameterError
  | .LengthErrorW => .LengthError
  | .OutOfRangeErrorW => .OutOfRangeError
  | .RuntimeErrorW => .RuntimeError
  | .RangeErrorW => .RangeError
  | .OverflowErrorW => .OverflowError
  | .UnderflowErrorW => .UnderflowError
  | .NotFoundErrorW => .NotFoundError
  | .IoErrorW => .IoError
  | .TypeErrorW => .TypeError
  | .declared _ _ w => w

/-- The __name__ of each wrapper class. -/
def typeName : WrapperTy → String
  | .ExceptionW => "Exception"
  | .LogicErrorW => "LogicError"
  | .DomainErrorW => "DomainError"
  | .InvalidParameterErrorW => "InvalidParameterError"
  | .LengthErrorW => "LengthError"
  | .OutOfRangeErrorW => "OutOfRangeError"
  | .RuntimeErrorW => "RuntimeError"
  | .RangeErrorW => "RangeError"
  | .OverflowErrorW => "OverflowError"
  | .UnderflowErrorW => "UnderflowError"
  | .NotFoundErrorW => "NotFoundError"
  | .IoErrorW => "IoError"
  | .TypeErrorW => "TypeError"
  | .declared n _ _ => n

/-- The wrapper-hierarchy base of each wrapper class: the first base listed
in each class statement of wrappers.py (the base wrapper Exception has no
wrapper-class base). -/
def customBase : WrapperTy → Option WrapperTy
  | .ExceptionW => none
  | .LogicErrorW => some .ExceptionW
  | .DomainErrorW => some .LogicErrorW
  | .InvalidParameterErrorW => some .LogicErrorW
  | .LengthErrorW => some .LogicErrorW
  | .OutOfRangeErrorW => some .LogicErrorW
  | .RuntimeErrorW => some .ExceptionW
  | .RangeErrorW => some .RuntimeErrorW
  | .OverflowErrorW => some .RuntimeErrorW
  | .UnderflowErrorW => some .RuntimeErrorW
  | .NotFoundErrorW => some .ExceptionW
  | .IoErrorW => some .RuntimeErrorW
  | .TypeErrorW => some .LogicErrorW
  | .declared _ b _ => some b

/-- Identity of a Python builtin exception class that appears as an extra
base of some wrapper class in wrappers.py, or as an ancestor of one. -/
inductive HostClass where
  | BaseExceptionH
  | ExceptionH
  | RuntimeErrorH
  | ArithmeticErrorH
  | OverflowErrorH
  | LookupErrorH
  | IOErrorH
  | TypeErrorH
deriving DecidableEq

/-- Ancestor chain (self included) of each Python builtin exception class,
per the fixed builtin hierarchy: every listed class derives from Exception,
which derives from BaseException, and OverflowError additionally derives
from ArithmeticError. -/
def hostAncestors : HostClass → List HostClass
  | .BaseExceptionH => [.BaseExceptionH]
  | .ExceptionH => [.ExceptionH, .BaseExceptionH]
  | .RuntimeErrorH => [.RuntimeErrorH, .ExceptionH, .BaseExceptionH]
  | .ArithmeticErrorH => [.ArithmeticErrorH, .ExceptionH, .BaseExceptionH]
  | .OverflowErrorH => [.OverflowErrorH, .ArithmeticErrorH, .ExceptionH, .BaseExceptionH]
  | .LookupErrorH => [.LookupErrorH, .ExceptionH, .BaseExceptionH]
  | .IOErrorH => [.IOErrorH, .ExceptionH, .BaseExceptionH]
  | .TypeErrorH => [.TypeErrorH, .ExceptionH, .BaseExceptionH]

/-- The Python builtin exception bases listed directly in each class
statement of wrappers.py (the base wrapper derives from builtin Exception;
most subclasses add a conventional builtin category). -/
def hostBases : WrapperTy → List HostClass
  | .ExceptionW => [.ExceptionH]
  | .RuntimeErrorW => [.RuntimeErrorH]
  | .OverflowErrorW => [.OverflowErrorH]
  | .UnderflowErrorW => [.ArithmeticErrorH]
  | .NotFoundErrorW => [.LookupErrorH]
  | .IoErrorW => [.IOErrorH]
  | .TypeErrorW => [.TypeErrorH]
  | _ => []

/-- Ancestor chain (self included) of a wrapper class inside the wrapper
hierarchy, obtained by following customBase; for the fixed classes the
chains are written out, for a declared class the chain extends that of its
base. -/
def wrapperAncestors : WrapperTy → List WrapperTy
  | .ExceptionW => [.ExceptionW]
  | .LogicErrorW => [.LogicErrorW, .ExceptionW]
  | .DomainErrorW => [.DomainErrorW, .LogicErrorW, .ExceptionW]
  | .InvalidParameterErrorW => [.InvalidParameterErrorW, .LogicErrorW, .ExceptionW]
  | .LengthErrorW => [.LengthErrorW, .LogicErrorW, .ExceptionW]
  | .OutOfRangeErrorW => [.OutOfRangeErrorW, .LogicErrorW, .ExceptionW]
  | .RuntimeErrorW => [.RuntimeErrorW, .ExceptionW]
  | .RangeErrorW => [.RangeErrorW, .RuntimeErrorW, .ExceptionW]
  | .OverflowErrorW => [.OverflowErrorW, .RuntimeErrorW, .ExceptionW]
  | .UnderflowErrorW => [.UnderflowErrorW, .RuntimeErrorW, .ExceptionW]
  | .NotFoundErrorW => [.NotFoundErrorW, .ExceptionW]
  | .IoErrorW => [.IoErrorW, .RuntimeErrorW, .ExceptionW]
  | .TypeErrorW => [.TypeErrorW, .LogicErrorW, .ExceptionW]
  | .declared n b w => .declared n b w :: wrapperAncestors b

/-- Sanity lemma: the written-out ancestor chains agree with customBase. -/
theorem wrapperAncestors_consistent (t : WrapperTy) :
    wrapperAncestors t =
      t :: (match customBase t with
            | some b => wrapperAncestors b
            | none => []) := by
  cases t <;> rfl

/-- An instance of wrapper class a is also an instance of wrapper class b
(b occurs in the method-resolution chain of a within the wrapper
hierarchy). -/
def isSubclassW (a b : WrapperTy) : Bool :=
  decide (b ∈ wrapperAncestors a)

/-- An instance of wrapper class w is catchable as the Python builtin class
h: some class in the wrapper ancestor chain of w lists a builtin base whose
builtin ancestor chain contains h. -/
def catchableAsHost (w : WrapperTy) (h : HostClass) : Bool :=
  (wrapperAncestors w).any fun a =>
    (hostBases a).any fun hb => decide (h ∈ hostAncestors hb)

/-- Insertion into a Python dict modelled as an association list: any
existing entry for the key is removed and the new binding appended, so keys
stay unique and the last writer wins. -/
def dictInsert {κ ν : Type} [DecidableEq κ] (key : κ) (v : ν)
    (d : List (κ × ν)) : List (κ × ν) :=
  (d.filter fun p => decide (p.1 ≠ key)) ++ [(key, v)]

/-- Dict lookup: the value bound to the key, if any. -/
def lookupDict {κ ν : Type} [DecidableEq κ] (d : List (κ × ν)) (key : κ) :
    Option ν :=
  (d.find? fun p => decide (p.1 = key)).map Prod.snd

/-- The registry mapping native class identity to wrapper class. -/
abbrev Registry := List (NativeClass × WrapperTy)

/-- The register decorator: stores the class in the registry under its
WrappedClass and returns the class unchanged. -/
def register (cls : WrapperTy) (reg : Registry) : WrapperTy × Registry :=
  (cls, dictInsert (WrappedClass cls) cls reg)

/-- Registry lookup by exact native runtime class, registry.get in the
source. -/
def lookupRegistry (reg : Registry) (n : NativeClass) : Option WrapperTy :=
  lookupDict reg n

/-- The thirteen wrapper classes of wrappers.py in their order of
definition, each of which is decorated with register at module load. -/
def moduleWrapperTypes : List WrapperTy :=
  [.ExceptionW, .LogicErrorW, .DomainErrorW, .InvalidParameterErrorW,
   .LengthErrorW, .OutOfRangeErrorW, .RuntimeErrorW, .RangeErrorW,
   .OverflowErrorW, .UnderflowErrorW, .NotFoundErrorW, .IoErrorW,
   .TypeErrorW]

/-- The registry as it stands after the module body has run: every class of
the fixed hierarchy registered in definition order. -/
def initialRegistry : Registry :=
  moduleWrapperTypes.foldl (fun reg cls => (register cls reg).2) []

/-- Marker appended to a message to model the fuller formatted asString
form of a freshly built native fault, which may differ from the bare
message. -/
def traceMark : String := " + traceback"

/-- Modelled from the spec: the native exception constructor lives in the
C++ extension, which is not under src/.  Per the spec it accepts a message
plus extra positional and keyword arguments forwarded verbatim; the
resulting fault reports that message from what() and a fuller formatted
form from asString(). -/
def mkNativeFault (c : NativeClass) (message : String) (args : List Value)
    (kwds : List (String × Value)) : NativeFault :=
  { cls := c, whatMsg := message, asStringMsg := message ++ traceMark,
    ctorArgs := args, ctorKwds := kwds }

/-- The first argument of the wrapper constructor: either an existing
native fault (the isinstance branch) or a plain message string. -/
inductive InitArg where
  | fault (f : NativeFault)
  | msg (s : String)
deriving DecidableEq

/-- A constructed wrapper instance: its exact wrapper class, the native
fault bound to self.cpp, and the message that was passed to the builtin
base-exception initializer. -/
structure WrapperInstance where
  ty : WrapperTy
  cpp : NativeFault
  hostInitMsg : String
deriving DecidableEq

/-- The wrapper constructor Exception.__init__: if the argument is already
a native fault, adopt it and take its what() as the message; otherwise the
argument is the message and a fresh native fault is built by
WrappedClass(message, *args, **kwds).  In both branches the builtin base
initializer receives the message and self.cpp is set. -/
def construct (ty : WrapperTy) (arg : InitArg) (args : List Value)
    (kwds : List (String × Value)) : WrapperInstance :=
  match arg with
  | .fault cpp => { ty := ty, cpp := cpp, hostInitMsg := cpp.what }
  | .msg message =>
    { ty := ty, cpp := mkNativeFault (WrappedClass ty) message args kwds,
      hostInitMsg := message }

/-- Exception.__repr__ from the source: the class name around the quoted
what() message. -/
def wrapperRepr (w : WrapperInstance) : String :=
  typeName w.ty ++ "(\x27" ++ w.cpp.what ++ "\x27)"

/-- Exception.__str__ from the source: the asString() form of the wrapped
fault. -/
def wrapperStr (w : WrapperInstance) : String :=
  w.cpp.asString

/-- Result of translate: the constructed wrapper instance together with the
number of warnings emitted during the call. -/
structure TranslateResult where
  result : WrapperInstance
  warningsEmitted : Nat
deriving DecidableEq

/-- The translate function: look up the exact runtime class of the fault in
the registry; on a hit instantiate the found wrapper class with the fault,
on a miss warn once and instantiate the base wrapper class instead. -/
def translate (reg : Registry) (cpp : NativeFault) : TranslateResult :=
  match lookupRegistry reg cpp.cls with
  | some pyType =>
    { result := construct pyType (.fault cpp) [] [], warningsEmitted := 0 }
  | none =>
    { result := construct .ExceptionW (.fault cpp) [] [],
      warningsEmitted := 1 }

/-- A module namespace modelled as a dict from attribute name to the bound
wrapper class. -/
abbrev ModuleNs := List (String × WrapperTy)

/-- Result of declare: the updated namespace and registry. -/
structure DeclareResult where
  ns : ModuleNs
  reg : Registry
deriving DecidableEq

/-- The declare function: build a new wrapper class with the given name,
single base and WrappedClass, register it with the same register operation
used by the fixed hierarchy, and bind it into the module namespace under
the name. -/
def declare (ns : ModuleNs) (reg : Registry) (exceptionName : String)
    (base : WrapperTy) (wrappedClass : NativeClass) : DeclareResult :=
  let registered :=
    register (WrapperTy.declared exceptionName base wrappedClass) reg
  { ns := dictInsert exceptionName registered.1 ns, reg := registered.2 }

/-- The keys of a registry are pairwise distinct (the dict invariant). -/
abbrev uniqKeys (reg : Registry) : Prop :=
  (reg.map Prod.fst).Nodup

/-- An attribute environment: which names resolve to which values on some
object. -/
abbrev AttrEnv := String → Option Value

/-- Outcome of a Python attribute lookup: a value, or an AttributeError
naming the missing attribute. -/
inductive AttrResult where
  | found (v : Value)
  | attributeError (name : String)
deriving DecidableEq

/-- Class-level attribute lookup on a wrapper class: normal lookup over the
members of the class itself first; only when that fails does
ExceptionMeta.__getattr__ run, delegating to the WrappedClass of the class;
if the native class also lacks the name, the AttributeError raised by
getattr propagates unchanged. -/
def typeGetattr (nativeEnv : NativeClass → AttrEnv) (own : AttrEnv)
    (ty : WrapperTy) (name : String) : AttrResult :=
  match own name with
  | some v => .found v
  | none =>
    match nativeEnv (WrappedClass ty) name with
    | some v => .found v
    | none => .attributeError name

/-- Instance-level attribute lookup on a wrapper instance: normal lookup
over the members of the instance and its class first; only when that fails
does Exception.__getattr__ run, forwarding to self.cpp; if the fault also
lacks the name, the AttributeError propagates unchanged. -/
def instanceGetattr (faultEnv : NativeFault → AttrEnv) (own : AttrEnv)
    (w : WrapperInstance) (name : String) : AttrResult :=
  match own name with
  | some v => .found v
  | none =>
    match faultEnv w.cpp name with
    | some v => .found v
    | none => .attributeError name

/-- Composition used by the re-registration property: declare the same
native class twice in a row, with possibly different names and bases. -/
def declareTwice (ns : ModuleNs) (reg : Registry) (n1 n2 : String)
    (b1 b2 : WrapperTy) (nc : NativeClass) : DeclareResult :=
  let d1 := declare ns reg n1 b1 nc
  declare d1.ns d1.reg n2 b2 nc

/-- Sample message used by the concrete witnesses. -/
def msgBoom : String := "boom"

/-- Sample formatted representation used by the concrete witnesses. -/
def strFormBoom : String := "boom with context"

/-- A concrete native fault of the registered class NotFoundError. -/
def sampleNotFoundFault : NativeFault :=
  { cls := .NotFoundError, whatMsg := msgBoom, asStringMsg := strFormBoom,
    ctorArgs := [], ctorKwds := [] }

/-- A concrete native fault of an unregistered native class. -/
def sampleOtherFault : NativeFault :=
  { cls := .other 0, whatMsg := msgBoom, asStringMsg := strFormBoom,
    ctorArgs := [], ctorKwds := [] }

/-- Sample attribute name used by the delegation witness. -/
def attrNameA : String := "virtual"

/-- Sample class-attribute environment of the native classes: the native
base class exposes one attribute. -/
def sampleNativeEnv : NativeClass → AttrEnv :=
  fun c nm =>
    if c = NativeClass.Exception then
      (if nm = attrNameA then some 7 else none)
    else none

/-- Attribute environment with no entries. -/
def emptyEnv : AttrEnv := fun _ => none

/-- Sample per-fault attribute environment with no entries. -/
def sampleFaultEnv : NativeFault → AttrEnv := fun _ _ => none

/-- A concrete wrapper instance used by the delegation witness. -/
def sampleInstance : WrapperInstance :=
  construct .ExceptionW (.fault sampleNotFoundFault) [] []

/-- Sample declared-class names used by the re-registration witness. -/
def nameFirst : String := "FirstError"

/-- Second sample declared-class name. -/
def nameSecond : String := "SecondError"

/-- Looking a key up right after inserting it yields the inserted value. -/
theorem lookupDict_dictInsert_self {κ ν : Type} [DecidableEq κ]
    (d : List (κ × ν)) (key : κ) (v : ν) :
    lookupDict (dictInsert key v d) key = some v := by
  unfold lookupDict dictInsert
  rw [List.find?_append]
  have h1 : (d.filter fun p => decide (p.1 ≠ key)).find?
      (fun p => decide (p.1 = key)) = none := by
    rw [List.find?_eq_none]
    intro x hx
    have hx2 := (List.mem_filter.mp hx).2
    simp only [decide_eq_true_eq] at hx2 ⊢
    exact hx2
  rw [h1]
  simp

/-- After an insertion, every entry bearing the inserted key carries the
inserted value. -/
theorem dictInsert_key_unique {κ ν : Type} [DecidableEq κ]
    {d : List (κ × ν)} {key : κ} {v : ν} {p : κ × ν}
    (hp : p ∈ dictInsert key v d) (hk : p.1 = key) : p.2 = v := by
  unfold dictInsert at hp
  rcases List.mem_append.mp hp with h | h
  · have h2 := (List.mem_filter.mp h).2
    simp only [decide_eq_true_eq] at h2
    exact absurd hk h2
  · simp only [List.mem_singleton] at h
    rw [h]

/-- Insertion preserves distinctness of the keys. -/
theorem nodupKeys_dictInsert {κ ν : Type} [DecidableEq κ]
    (d : List (κ × ν)) (key : κ) (v : ν)
    (h : (d.map Prod.fst).Nodup) :
    ((dictInsert key v d).map Prod.fst).Nodup := by
  unfold dictInsert
  rw [List.map_append, List.nodup_append]
  refine ⟨h.sublist (List.Sublist.map Prod.fst (List.filter_sublist d)),
    List.nodup_singleton key, ?_⟩
  intro a ha hb
  simp only [List.map_cons, List.map_nil, List.mem_singleton] at hb
  rcases List.mem_map.mp ha with ⟨q, hq, hqa⟩
  have h2 := (List.mem_filter.mp hq).2
  simp only [decide_eq_true_eq] at h2
  exact h2 (hqa.trans hb)

/-- Every wrapper class occurs in its own ancestor chain. -/
theorem self_mem_wrapperAncestors (t : WrapperTy) :
    t ∈ wrapperAncestors t := by
  cases t <;> simp [wrapperAncestors]

/-- C1: for every wrapper class registered for the exact runtime class of a
native fault, translate returns an instance of exactly that class wrapping
the very same fault with no warning, and registration keys each wrapper
class by its WrappedClass, so the registered class for a native class N is
the one whose WrappedClass is N. -/
theorem c1_round_trip_identity :
    (∀ (reg : Registry) (w : WrapperTy) (f : NativeFault),
       lookupRegistry reg f.cls = some w →
       (translate reg f).result.ty = w ∧
       (translate reg f).result.cpp = f ∧
       (translate reg f).warningsEmitted = 0) ∧
    (∀ (reg : Registry) (w : WrapperTy),
       lookupRegistry (register w reg).2 (WrappedClass w) = some w) := by
  constructor
  · intro reg w f h
    unfold translate
    rw [h]
    exact ⟨rfl, rfl, rfl⟩
  · intro reg w
    exact lookupDict_dictInsert_self reg (WrappedClass w) w

/-- Witness for C1 at the NotFoundError wrapper on the module registry. -/
theorem c1_round_trip_identity_witness :
    (translate initialRegistry sampleNotFoundFault).result.ty =
      WrapperTy.NotFoundErrorW ∧
    (translate initialRegistry sampleNotFoundFault).result.cpp =
      sampleNotFoundFault ∧
    (translate initialRegistry sampleNotFoundFault).warningsEmitted = 0 :=
  c1_round_trip_identity.1 initialRegistry WrapperTy.NotFoundErrorW
    sampleNotFoundFault (by decide)

/-- C2: translating a native fault whose exact runtime class is not in the
registry emits exactly one warning and returns an instance of the base
wrapper class still wrapping the same fault; translate is a total function,
so no other outcome is possible. -/
theorem c2_fallback_safety (reg : Registry) (f : NativeFault)
    (h : lookupRegistry reg f.cls = none) :
    (translate reg f).result.ty = WrapperTy.ExceptionW ∧
    (translate reg f).result.cpp = f ∧
    (translate reg f).warningsEmitted = 1 := by
  unfold translate
  rw [h]
  exact ⟨rfl, rfl, rfl⟩

/-- Witness for C2 at an unregistered native class on the module
registry. -/
theorem c2_fallback_safety_witness :
    (translate initialRegistry sampleOtherFault).result.ty =
      WrapperTy.ExceptionW ∧
    (translate initialRegistry sampleOtherFault).result.cpp =
      sampleOtherFault ∧
    (translate initialRegistry sampleOtherFault).warningsEmitted = 1 :=
  c2_fallback_safety initialRegistry sampleOtherFault (by decide)

/-- C3: for every wrapper instance the str form is the asString form of
the wrapped fault, the repr form is the class name around the quoted what
message, and in both construction modes the message handed to the builtin
base initializer equals the what message of the wrapped fault. -/
theorem c3_message_fidelity (w : WrapperInstance) (ty : WrapperTy)
    (f : NativeFault) (s : String) (args : List Value)
    (kwds : List (String × Value)) :
    wrapperStr w = w.cpp.asString ∧
    wrapperRepr w = typeName w.ty ++ "(\x27" ++ w.cpp.what ++ "\x27)" ∧
    (construct ty (.fault f) args kwds).hostInitMsg =
      (construct ty (.fault f) args kwds).cpp.what ∧
    (construct ty (.msg s) args kwds).hostInitMsg =
      (construct ty (.msg s) args kwds).cpp.what :=
  ⟨rfl, rfl, rfl, rfl⟩

/-- C4 counterexample: contrary to the claim, the NotFoundError wrapper is
not a subclass of the custom RuntimeError wrapper. -/
theorem c4_counterexample :
    isSubclassW WrapperTy.NotFoundErrorW WrapperTy.RuntimeErrorW = false := by
  decide

/-- C4 amended: the NotFoundError wrapper is a direct subclass of the base
Exception wrapper (hence catchable as the base wrapper) and of the builtin
LookupError, but not a subclass of the custom RuntimeError wrapper. -/
theorem c4_notfound_placement :
    isSubclassW WrapperTy.NotFoundErrorW WrapperTy.ExceptionW = true ∧
    customBase WrapperTy.NotFoundErrorW = some WrapperTy.ExceptionW ∧
    catchableAsHost WrapperTy.NotFoundErrorW HostClass.LookupErrorH = true ∧
    isSubclassW WrapperTy.NotFoundErrorW WrapperTy.RuntimeErrorW = false := by
  decide

/-- C5: declaring twice for the same native class leaves the registry
mapping that class to the second declared wrapper, with no residual entry
for the first, keys stay unique throughout, and translate of a fault of
that class returns an instance of the second declared wrapper. -/
theorem c5_last_registration_wins (ns : ModuleNs) (reg : Registry)
    (n1 n2 : String) (b1 b2 : WrapperTy) (nc : NativeClass)
    (hkeys : uniqKeys reg) :
    lookupRegistry (declareTwice ns reg n1 n2 b1 b2 nc).reg nc =
      some (WrapperTy.declared n2 b2 nc) ∧
    (∀ p ∈ (declareTwice ns reg n1 n2 b1 b2 nc).reg,
       p.1 = nc → p.2 = WrapperTy.declared n2 b2 nc) ∧
    uniqKeys (declare ns reg n1 b1 nc).reg ∧
    uniqKeys (declareTwice ns reg n1 n2 b1 b2 nc).reg ∧
    (∀ f : NativeFault, f.cls = nc →
       (translate (declareTwice ns reg n1 n2 b1 b2 nc).reg f).result.ty =
         WrapperTy.declared n2 b2 nc) := by
  have hlook : lookupRegistry (declareTwice ns reg n1 n2 b1 b2 nc).reg nc =
      some (WrapperTy.declared n2 b2 nc) :=
    lookupDict_dictInsert_self _ nc (WrapperTy.declared n2 b2 nc)
  refine ⟨hlook, ?_, ?_, ?_, ?_⟩
  · intro p hp hk
    exact dictInsert_key_unique hp hk
  · exact nodupKeys_dictInsert reg nc (WrapperTy.declared n1 b1 nc) hkeys
  · exact nodupKeys_dictInsert _ nc (WrapperTy.declared n2 b2 nc)
      (nodupKeys_dictInsert reg nc (WrapperTy.declared n1 b1 nc) hkeys)
  · intro f hf
    unfold translate
    rw [hf, hlook]
    rfl

/-- Witness for C5: two declarations for one fresh native class on the
module registry. -/
theorem c5_last_registration_wins_witness :
    lookupRegistry
      (declareTwice [] initialRegistry nameFirst nameSecond
        WrapperTy.ExceptionW WrapperTy.ExceptionW (NativeClass.other 7)).reg
      (NativeClass.other 7) =
      some (WrapperTy.declared nameSecond WrapperTy.ExceptionW
        (NativeClass.other 7)) :=
  (c5_last_registration_wins [] initialRegistry nameFirst nameSecond
    WrapperTy.ExceptionW WrapperTy.ExceptionW (NativeClass.other 7)
    (by decide)).1

/-- C6: the wrapper constructor binds cpp to an already-native argument and
takes its what message; for a string argument it synthesizes a fresh fault
through the WrappedClass constructor with the extra positional and keyword
arguments forwarded verbatim; in both modes the builtin base initializer
receives the message and the instance keeps its exact class. -/
theorem c6_constructor_contract (ty : WrapperTy) (f : NativeFault)
    (s : String) (args : List Value) (kwds : List (String × Value)) :
    construct ty (.fault f) args kwds =
      { ty := ty, cpp := f, hostInitMsg := f.what } ∧
    (construct ty (.msg s) args kwds).cpp =
      mkNativeFault (WrappedClass ty) s args kwds ∧
    (construct ty (.msg s) args kwds).cpp.cls = WrappedClass ty ∧
    (construct ty (.msg s) args kwds).cpp.ctorArgs = args ∧
    (construct ty (.msg s) args kwds).cpp.ctorKwds = kwds ∧
    (construct ty (.msg s) args kwds).hostInitMsg = s ∧
    (construct ty (.msg s) args kwds).ty = ty ∧
    (construct ty (.fault f) args kwds).ty = ty :=
  ⟨rfl, rfl, rfl, rfl, rfl, rfl, rfl, rfl⟩

/-- C7: each wrapper with a conventional builtin category inherits it:
the OverflowError wrapper is catchable as the custom RuntimeError and the
builtin OverflowError, the UnderflowError wrapper as the custom
RuntimeError and the builtin ArithmeticError, the IoError wrapper as the
custom RuntimeError and the builtin IOError, the NotFoundError wrapper as
the builtin LookupError, and the TypeError wrapper as the custom
LogicError and the builtin TypeError. -/
theorem c7_dual_category_catchability :
    isSubclassW WrapperTy.OverflowErrorW WrapperTy.RuntimeErrorW = true ∧
    catchableAsHost WrapperTy.OverflowErrorW HostClass.OverflowErrorH = true ∧
    isSubclassW WrapperTy.UnderflowErrorW WrapperTy.RuntimeErrorW = true ∧
    catchableAsHost WrapperTy.UnderflowErrorW HostClass.ArithmeticErrorH = true ∧
    isSubclassW WrapperTy.IoErrorW WrapperTy.RuntimeErrorW = true ∧
    catchableAsHost WrapperTy.IoErrorW HostClass.IOErrorH = true ∧
    catchableAsHost WrapperTy.NotFoundErrorW HostClass.LookupErrorH = true ∧
    isSubclassW WrapperTy.TypeErrorW WrapperTy.LogicErrorW = true ∧
    catchableAsHost WrapperTy.TypeErrorW HostClass.TypeErrorH = true := by
  decide

/-- C8: a name found among the own members of a wrapper class or instance
resolves there; a name not found on the class resolves to the same name on
its WrappedClass, and a name not found on an instance is forwarded to its
cpp fault; when the delegate also lacks the name, the standard
AttributeError for that name propagates. -/
theorem c8_attribute_miss_delegation
    (nativeEnv : NativeClass → AttrEnv) (faultEnv : NativeFault → AttrEnv)
    (own ownInst : AttrEnv) (ty : WrapperTy) (w : WrapperInstance)
    (name : String) (v : Value) :
    (own name = some v → typeGetattr nativeEnv own ty name = .found v) ∧
    (own name = none → nativeEnv (WrappedClass ty) name = some v →
       typeGetattr nativeEnv own ty name = .found v) ∧
    (own name = none → nativeEnv (WrappedClass ty) name = none →
       typeGetattr nativeEnv own ty name = .attributeError name) ∧
    (ownInst name = some v → instanceGetattr faultEnv ownInst w name = .found v) ∧
    (ownInst name = none → faultEnv w.cpp name = some v →
       instanceGetattr faultEnv ownInst w name = .found v) ∧
    (ownInst name = none → faultEnv w.cpp name = none →
       instanceGetattr faultEnv ownInst w name = .attributeError name) := by
  refine ⟨?_, ?_, ?_, ?_, ?_, ?_⟩
  · intro h1
    simp [typeGetattr, h1]
  · intro h1 h2
    simp [typeGetattr, h1, h2]
  · intro h1 h2
    simp [typeGetattr, h1, h2]
  · intro h1
    simp [instanceGetattr, h1]
  · intro h1 h2
    simp [instanceGetattr, h1, h2]
  · intro h1 h2
    simp [instanceGetattr, h1, h2]

/-- Witness for C8: a class-attribute miss on the base wrapper resolves to
the attribute of the wrapped native class. -/
theorem c8_attribute_miss_delegation_witness :
    typeGetattr sampleNativeEnv emptyEnv WrapperTy.ExceptionW attrNameA =
      AttrResult.found 7 :=
  (c8_attribute_miss_delegation sampleNativeEnv sampleFaultEnv emptyEnv
      emptyEnv WrapperTy.ExceptionW sampleInstance attrNameA 7).2.1
    rfl (by simp [sampleNativeEnv, WrappedClass])

/-- C9: declare builds a new wrapper class with the given name, base and
WrappedClass, registers it through the same register operation as the
fixed hierarchy, and binds it in the namespace under the name; any base
and any native class are accepted. -/
theorem c9_declare_semantics (ns : ModuleNs) (reg : Registry)
    (exceptionName : String) (base : WrapperTy) (wrapped : NativeClass) :
    WrappedClass (WrapperTy.declared exceptionName base wrapped) = wrapped ∧
    typeName (WrapperTy.declared exceptionName base wrapped) = exceptionName ∧
    customBase (WrapperTy.declared exceptionName base wrapped) = some base ∧
    isSubclassW (WrapperTy.declared exceptionName base wrapped) base = true ∧
    (declare ns reg exceptionName base wrapped).reg =
      (register (WrapperTy.declared exceptionName base wrapped) reg).2 ∧
    lookupRegistry (declare ns reg exceptionName base wrapped).reg wrapped =
      some (WrapperTy.declared exceptionName base wrapped) ∧
    lookupDict (declare ns reg exceptionName base wrapped).ns exceptionName =
      some (WrapperTy.declared exceptionName base wrapped) := by
  refine ⟨rfl, rfl, rfl, ?_, rfl, ?_, ?_⟩
  · simp only [isSubclassW, wrapperAncestors, decide_eq_true_eq,
      List.mem_cons]
    exact Or.inr (self_mem_wrapperAncestors base)
  · exact lookupDict_dictInsert_self reg wrapped
      (WrapperTy.declared exceptionName base wrapped)
  · exact lookupDict_dictInsert_self ns exceptionName
      (WrapperTy.declared exceptionName base wrapped)

/-- C10: constructing from an existing native fault together with extra
positional or keyword arguments does not fail; the extras are discarded,
the result is identical to the construction without them, and the fault
and message are unaffected. -/
theorem c10_extra_args_ignored (ty : WrapperTy) (f : NativeFault)
    (args : List Value) (kwds : List (String × Value)) :
    construct ty (.fault f) args kwds = construct ty (.fault f) [] [] ∧
    (construct ty (.fault f) args kwds).cpp = f ∧
    (construct ty (.fault f) args kwds).hostInitMsg = f.what :=
  ⟨rfl, rfl, rfl⟩

end PexExceptions
